import Mathlib

/-!
Verification of the call-lifecycle and fax-workflow UI model of the
tylnex-FE repository.

The repository is a browser client with two panels: a softphone built on a
vendor WebRTC SDK, and a fax dashboard talking to a backend over HTTP.  We
shallowly embed the React state of each panel as a record, each event
handler and user action as a pure state-transition function, and each
external interaction (vendor SDK invocation, network request, browser
alert) as an element of an explicit effect list returned alongside the new
state.  Asynchronous outcomes (fetch resolution or rejection, getUserMedia
grant or denial, a vendor method throwing) are passed in as parameters, so
each execution path of the source is one branch of the Lean function.

Two revisions of the softphone exist in the repository: the
`PhonePanel` of src/unnamed/part_002 (with an explicit incoming-call
record, a `cleanupCall` helper and a `telnyx.notification` listener) and
the `PhonePanel` of src/src/app/components/PhonePanel.tsx (with a single
`activeCall` record, `callUpdate` / `call.hangup` / `call.ended`
listeners, and a backend-mediated hangup).  The former is embedded in the
main `Tylnex` definitions; the latter under the `Tsx`-prefixed names.
-/

namespace Tylnex

/-- JS `a || b` for an optional string field: `a` that is nullish or the
empty string (falsy) falls through to the default `b`. -/
def jsOrStr (a : Option String) (b : String) : String :=
  match a with
  | some v => if v = "" then b else v
  | none => b

/-- JS truthiness filter on an optional string: `some v` survives only when
`v` is non-empty. -/
def truthyOpt (a : Option String) : Option String :=
  match a with
  | some v => if v = "" then none else some v
  | none => none

/-- Connection display vocabulary of part_002
(`type ConnectionState = "connecting" | "ready" | "error" | "disconnected"`). -/
inductive ConnectionState where
  | connecting
  | ready
  | error
  | disconnected
deriving DecidableEq, Repr

/-- The fields of the vendor call object that part_002 reads:
`call.id`, `call.state`, `call.direction`, `call.options.callerName`,
`call.remoteCallerNumber`, `call.destinationNumber`. -/
structure CallInfo where
  id : String
  state : String
  direction : String
  callerName : String
  remoteCallerNumber : Option String
  destinationNumber : Option String
deriving DecidableEq, Repr

/-- The incoming-call record of part_002:
`interface IncomingCall \x7b from: string; to: string; call: Call \x7d`.
`from` is a Lean keyword, so the field is named `fromNum` (and `toNum`
for symmetry). -/
structure IncomingCall where
  fromNum : String
  toNum : String
  call : CallInfo
deriving DecidableEq, Repr

/-- The React state of the part_002 PhonePanel: `connectionState`,
`activeCall`, `incomingCall`, `dest`, `status`, `muted`, plus the
`outboundCallsRef` id set (modelled as a duplicate-free list) and the
`srcObject` of the remote audio element. -/
structure PanelState where
  connectionState : ConnectionState
  activeCall : Option CallInfo
  incomingCall : Option IncomingCall
  dest : String
  status : String
  muted : Bool
  outboundCalls : List String
  audioSrc : Option String
deriving DecidableEq, Repr

/-- External interactions performed by a handler or user action: vendor SDK
invocations, backend network requests, the getUserMedia permission
request, browser alerts and console errors. -/
inductive Effect where
  | vendorNewCall (dest : String)
  | vendorAnswer
  | vendorHangup
  | vendorMuteToggle
  | vendorDTMF (digit : String)
  | netRequest (endpoint : String)
  | getUserMediaReq
  | alertEff (msg : String)
  | consoleError
  | fetchFaxesEff
deriving DecidableEq, Repr

/-- Embedding of `cleanupCall` (part_002, lines 45 to 54): clear both call
records, reset the mute flag, recompute the status label from the
connection state, and detach the remote audio stream. -/
def cleanupCall (s : PanelState) : PanelState :=
  { s with
    activeCall := none
    incomingCall := none
    muted := false
    status := if s.connectionState = .ready then "Ready" else "Disconnected"
    audioSrc := none }

/-- Embedding of `handleCallUpdate` (part_002, lines 65 to 98).  The three
branches are successive independent `if` statements, not an `else` chain:
a `ringing` update with a non-empty caller name installs the incoming-call
record, an `active` update promotes the call, and a `hangup` or `destroy`
update drops the id from the outbound set and runs `cleanupCall`.  The
deferred `setTimeout(handleRemoteStream, 500)` of the active branch only
touches the audio element later and is not part of the synchronous state
transition. -/
def handleCallUpdate (call : CallInfo) (s : PanelState) : PanelState :=
  let s1 :=
    if call.state = "ringing" ∧ call.callerName ≠ "" then
      { s with
        incomingCall := some
          { fromNum := jsOrStr call.remoteCallerNumber "Unknown"
            toNum := jsOrStr call.destinationNumber "You"
            call := call }
        status := "Incoming: " ++ jsOrStr call.remoteCallerNumber "Unknown" }
    else s
  let s2 :=
    if call.state = "active" then
      { s1 with
        activeCall := some call
        incomingCall := none
        status := "Connected" }
    else s1
  if call.state = "hangup" ∨ call.state = "destroy" then
    cleanupCall { s2 with outboundCalls := s2.outboundCalls.erase call.id }
  else s2

/-- Embedding of `makeCall` (part_002, lines 189 to 200): guarded by the
client ref being set and the destination being non-empty, it constructs a
vendor call, records a truthy id of the new call in the outbound set, and
sets the status to Dialing. -/
def makeCall (s : PanelState) (clientPresent : Bool) (newCallId : Option String) :
    PanelState × List Effect :=
  if ¬ clientPresent ∨ s.dest = "" then (s, [])
  else
    let s1 :=
      match truthyOpt newCallId with
      | some i =>
        { s with outboundCalls :=
            if i ∈ s.outboundCalls then s.outboundCalls else i :: s.outboundCalls }
      | none => s
    ({ s1 with status := "Dialing..." }, [.vendorNewCall s.dest])

/-- Disabled condition of the Call button of part_002 (line 304):
`connectionState !== "ready" || !dest || !!isCallInProgress`, where
`isCallInProgress = activeCall || incomingCall`. -/
def callButtonDisabled (s : PanelState) : Bool :=
  s.connectionState != .ready || s.dest == "" ||
    s.activeCall.isSome || s.incomingCall.isSome

/-- The place-call user action of part_002: a disabled button never fires
its onClick handler, so the action is `makeCall` gated by
`callButtonDisabled`. -/
def makeCallAction (s : PanelState) (clientPresent : Bool) (newCallId : Option String) :
    PanelState × List Effect :=
  if callButtonDisabled s then (s, []) else makeCall s clientPresent newCallId

/-- Outcome of the `navigator.mediaDevices.getUserMedia` request. -/
inductive MediaResult where
  | granted
  | denied
deriving DecidableEq, Repr

/-- Embedding of `answerCall` (part_002, lines 202 to 214): requires the
incoming-call record; requests microphone permission; on grant, attaches
the stream and invokes `answer()` on the vendor call (whose own failure is
caught by the same catch); on denial, the catch sets the status to
Failed to answer.  The function is total: every throwing path of the
source ends in the catch block. -/
def answerCall (s : PanelState) (media : MediaResult) (answerThrows : Bool) :
    PanelState × List Effect :=
  match s.incomingCall with
  | none => (s, [])
  | some _ =>
    match media with
    | .denied => ({ s with status := "Failed to answer" }, [.getUserMediaReq])
    | .granted =>
      if answerThrows then
        ({ s with status := "Failed to answer" }, [.getUserMediaReq, .vendorAnswer])
      else
        ({ s with status := "Answering..." }, [.getUserMediaReq, .vendorAnswer])

/-- Embedding of `rejectCall` (part_002, lines 216 to 225): requires the
incoming-call record; invokes `hangup()` on the vendor call and then runs
`cleanupCall`.  When the vendor hangup throws, the catch only logs, so
`cleanupCall` does not run. -/
def rejectCall (s : PanelState) (vendorThrows : Bool) : PanelState × List Effect :=
  match s.incomingCall with
  | none => (s, [])
  | some _ =>
    if vendorThrows then (s, [.vendorHangup])
    else (cleanupCall s, [.vendorHangup])

/-- Embedding of `hangupCall` (part_002, lines 227 to 235): requires the
active call; invokes `hangup()` on it inside try/catch and changes no
React state itself (cleanup is left to the terminal notification). -/
def hangupCall (s : PanelState) (vendorThrows : Bool) : PanelState × List Effect :=
  match s.activeCall with
  | none => (s, [])
  | some _ =>
    let _ := vendorThrows
    (s, [.vendorHangup])

/-- Embedding of `toggleMute` (part_002, lines 237 to 251): requires the
active call; invokes the vendor mute or unmute method and flips the mute
flag; when the vendor method throws, the flag is left unchanged. -/
def toggleMute (s : PanelState) (vendorThrows : Bool) : PanelState × List Effect :=
  match s.activeCall with
  | none => (s, [])
  | some _ =>
    if vendorThrows then (s, [.vendorMuteToggle])
    else ({ s with muted := !s.muted }, [.vendorMuteToggle])

/-- Embedding of `sendDTMF` (part_002, lines 253 to 261): requires the
active call; sends the digit through the vendor call inside try/catch and
changes no React state. -/
def sendDTMF (s : PanelState) (digit : String) (vendorThrows : Bool) :
    PanelState × List Effect :=
  match s.activeCall with
  | none => (s, [])
  | some _ =>
    let _ := vendorThrows
    (s, [.vendorDTMF digit])

/-- Connection display vocabulary of PhonePanel.tsx
(`type Ready = "connecting" | "ready" | "error"`). -/
inductive Ready where
  | connecting
  | ready
  | error
deriving DecidableEq, Repr

/-- The fields of the vendor call object read by PhonePanel.tsx, each
accessed defensively (`(call as any).id`, `.callID`, `.state`, `.status`,
`.direction`, `.remoteStream`, `.remoteMediaStream`), hence all
optional. -/
structure TsxCall where
  id : Option String
  callID : Option String
  state : Option String
  status : Option String
  direction : Option String
  remoteStream : Option String
  remoteMediaStream : Option String
deriving DecidableEq, Repr

/-- The React state of the PhonePanel.tsx revision: `ready`, `activeCall`,
`dest`, `status`, `muted`, plus the `srcObject` of the remote audio
element.  This revision keeps no separate incoming-call record. -/
structure TsxState where
  ready : Ready
  activeCall : Option TsxCall
  dest : String
  status : String
  muted : Bool
  audioSrc : Option String
deriving DecidableEq, Repr

/-- Embedding of `formatStatus` (PhonePanel.tsx, lines 231 to 236). -/
def formatStatus (call : Option TsxCall) : String :=
  match call with
  | none => "Idle"
  | some c =>
    let dir := jsOrStr c.direction ""
    let st := jsOrStr c.state (jsOrStr c.status "")
    (if dir = "" then "" else dir ++ " • ") ++ (if st = "" then "active" else st)

/-- Embedding of the `callUpdate` listener (PhonePanel.tsx, lines 52 to
72).  It is guarded by the disposed flag; a lower-cased terminal state
(`ended`, `hangup`, `rejected`, `failed`) clears the active call, resets
mute and sets the status to Ready; any other state attaches a truthy
remote stream to the audio element, stores the call as active and
reformats the status. -/
def onCallUpdate (disposed : Bool) (call : TsxCall) (s : TsxState) : TsxState :=
  if disposed then s
  else
    let callState := jsOrStr call.state (jsOrStr call.status "unknown")
    if callState.toLower ∈ ["ended", "hangup", "rejected", "failed"] then
      { s with activeCall := none, status := "Ready", muted := false }
    else
      let s1 :=
        match truthyOpt call.remoteStream <|> truthyOpt call.remoteMediaStream with
        | some st => { s with audioSrc := some st }
        | none => s
      { s1 with activeCall := some call, status := formatStatus (some call) }

/-- Embedding of the `call.hangup` listener (PhonePanel.tsx, lines 74 to
78).  The source handler reads no disposed flag: the parameter is carried
to state that the update runs regardless of it. -/
def onCallHangupEvt (disposed : Bool) (s : TsxState) : TsxState :=
  let _ := disposed
  { s with activeCall := none, status := "Ready", muted := false }

/-- Embedding of the `call.ended` listener (PhonePanel.tsx, lines 80 to
84), identical to the `call.hangup` one and equally without a disposed
check. -/
def onCallEndedEvt (disposed : Bool) (s : TsxState) : TsxState :=
  let _ := disposed
  { s with activeCall := none, status := "Ready", muted := false }

/-- Embedding of the `telnyx.ready` listener (PhonePanel.tsx, lines 38 to
43), which does check the disposed flag. -/
def onTelnyxReady (disposed : Bool) (s : TsxState) : TsxState :=
  if disposed then s else { s with ready := .ready, status := "Ready" }

/-- Embedding of the `telnyx.error` listener (PhonePanel.tsx, lines 45 to
50), which does check the disposed flag. -/
def onTelnyxError (disposed : Bool) (s : TsxState) : TsxState :=
  if disposed then s else { s with ready := .error, status := "Error" }

/-- Embedding of the catch block of the mount effect (PhonePanel.tsx,
lines 88 to 91), reached when the token fetch fails or the token is
missing.  The source catch reads no disposed flag: the parameter is
carried to state that the update runs regardless of it. -/
def initCatch (disposed : Bool) (s : TsxState) : TsxState :=
  let _ := disposed
  { s with ready := .error, status := "Error" }

/-- Outcome of an awaited `fetch`: the promise resolves with some HTTP
status (`ok` records `response.ok`) or rejects with a network error. -/
inductive FetchOut where
  | resolved (ok : Bool)
  | rejected
deriving DecidableEq, Repr

/-- Embedding of `hangup` (PhonePanel.tsx, lines 133 to 155).  With a
truthy call id the backend hangup endpoint is called; only when that fetch
REJECTS does the catch run the local vendor hangup fallback and reset
`activeCall`, `status` and `muted`.  A resolved response, ok or not, ends
the function with the state unchanged.  Without a truthy id the local
vendor hangup is invoked; only if it throws does the catch reset the
state. -/
def hangup (s : TsxState) (backend : FetchOut) (localThrows fallbackThrows : Bool) :
    TsxState × List Effect :=
  match s.activeCall with
  | none => (s, [])
  | some c =>
    match truthyOpt c.id <|> truthyOpt c.callID with
    | some cid =>
      match backend with
      | .resolved _ =>
        (s, [.netRequest ("/telnyx/calls/" ++ cid ++ "/hangup")])
      | .rejected =>
        let _ := fallbackThrows
        ({ s with activeCall := none, status := "Ready", muted := false },
         [.netRequest ("/telnyx/calls/" ++ cid ++ "/hangup"), .vendorHangup])
    | none =>
      if localThrows then
        let _ := fallbackThrows
        ({ s with activeCall := none, status := "Ready", muted := false },
         [.vendorHangup, .vendorHangup])
      else (s, [.vendorHangup])

/-- Embedding of `call` (PhonePanel.tsx, lines 103 to 124): guarded by the
client ref and a non-empty destination; posts to the backend outbound-call
endpoint; an ok response sets the status to Call initiated, a non-ok
response throws and the catch sets it back to Ready, as does a rejected
fetch. -/
def tsxCall (s : TsxState) (clientPresent : Bool) (backend : FetchOut) :
    TsxState × List Effect :=
  if ¬ clientPresent ∨ s.dest = "" then (s, [])
  else
    match backend with
    | .resolved true =>
      ({ s with status := "Call initiated" }, [.netRequest "/telnyx/calls/outbound"])
    | .resolved false =>
      ({ s with status := "Ready" }, [.netRequest "/telnyx/calls/outbound"])
    | .rejected =>
      ({ s with status := "Ready" }, [.netRequest "/telnyx/calls/outbound"])

/-- Disabled condition of the Call button of PhonePanel.tsx (line 185):
`ready !== "ready" || status !== "Ready"`. -/
def tsxCallButtonDisabled (s : TsxState) : Bool :=
  s.ready != .ready || s.status != "Ready"

/-- The place-call user action of PhonePanel.tsx: `tsxCall` gated by the
disabled attribute of the Call button. -/
def tsxCallAction (s : TsxState) (clientPresent : Bool) (backend : FetchOut) :
    TsxState × List Effect :=
  if tsxCallButtonDisabled s then (s, []) else tsxCall s clientPresent backend

/-- Embedding of `answer` (PhonePanel.tsx, lines 126 to 131): requires the
active call; invokes `answer()` on it inside try/catch and changes no
React state. -/
def tsxAnswer (s : TsxState) (vendorThrows : Bool) : TsxState × List Effect :=
  match s.activeCall with
  | none => (s, [])
  | some _ =>
    let _ := vendorThrows
    (s, [.vendorAnswer])

/-- Embedding of `toggleMute` (PhonePanel.tsx, lines 157 to 163): requires
the active call; awaits the vendor `toggleAudioMute` and flips the mute
flag; a throw leaves the flag unchanged. -/
def tsxToggleMute (s : TsxState) (vendorThrows : Bool) : TsxState × List Effect :=
  match s.activeCall with
  | none => (s, [])
  | some _ =>
    if vendorThrows then (s, [.vendorMuteToggle])
    else ({ s with muted := !s.muted }, [.vendorMuteToggle])

/-- Embedding of `sendDTMF` (PhonePanel.tsx, lines 165 to 170): requires
the active call; sends the digit inside try/catch and changes no React
state. -/
def tsxSendDTMF (s : TsxState) (digit : String) (vendorThrows : Bool) :
    TsxState × List Effect :=
  match s.activeCall with
  | none => (s, [])
  | some _ =>
    let _ := vendorThrows
    (s, [.vendorDTMF digit])

/-- Outcome of an awaited fax-endpoint `fetch` followed by
`response.json()`: the promise chain resolves with `response.ok`, the
optional `data` field and the optional `message` field of the
`\x7bdata, message?\x7d` envelope, or rejects with a network error
message. -/
inductive NetOutcome (α : Type) where
  | resolved (ok : Bool) (data : Option α) (message : Option String)
  | rejected (errMsg : String)
deriving DecidableEq, Repr

/-- The send-fax form state of part_000
(`interface SendForm \x7b to; from; mediaUrl; file \x7d`); the `File`
object is modelled by its name, and `to` and `from` are Lean keywords, so
those fields are named `toNum` and `fromNum`. -/
structure SendForm where
  toNum : String
  fromNum : String
  mediaUrl : String
  file : Option String
deriving DecidableEq, Repr

/-- The `\x7bfaxId\x7d` payload of a successful `/fax/send` response. -/
structure SendFaxData where
  faxId : String
deriving DecidableEq, Repr

/-- Tabs of the fax dashboard (`type TabType`). -/
inductive TabType where
  | send
  | status
  | history
deriving DecidableEq, Repr

/-- Embedding of `sendFax` (part_000, lines 85 to 123): an empty `to` or
`mediaUrl` field alerts and returns before any request; otherwise the
response is a success exactly when `response.ok` holds and `data` is
present, in which case the success alert fires, the form is reset to
all-empty values and, on the history tab, the list is refetched; every
other outcome alerts the error message and leaves the form alone. -/
def sendFax (form : SendForm) (activeTab : TabType) (outcome : NetOutcome SendFaxData) :
    SendForm × List Effect :=
  if form.toNum = "" ∨ form.mediaUrl = "" then
    (form, [.alertEff "Please fill in all required fields"])
  else
    match outcome with
    | .resolved true (some d) _ =>
      (⟨"", "", "", none⟩,
       [.netRequest "/fax/send",
        .alertEff ("Fax sent successfully! Fax ID: " ++ d.faxId)] ++
       (if activeTab = .history then [.fetchFaxesEff] else []))
    | .resolved _ _ msg =>
      (form, [.netRequest "/fax/send",
              .alertEff ("Error: " ++ jsOrStr msg "Failed to send fax")])
    | .rejected e =>
      (form, [.netRequest "/fax/send", .alertEff ("Error: " ++ e)])

/-- Embedding of `checkFaxStatus` (part_000, lines 125 to 150): an empty
fax id alerts and returns, leaving the previous `faxStatus`; a response
with `ok` and a present `data` stores that data; every other outcome
alerts and stores `null`.  The shape of the fax-status record is opaque to
this handler, hence the type parameter. -/
def checkFaxStatus {α : Type} (statusFaxId : String) (prev : Option α)
    (outcome : NetOutcome α) : Option α × List Effect :=
  if statusFaxId = "" then (prev, [.alertEff "Please enter a Fax ID"])
  else
    match outcome with
    | .resolved true (some d) _ => (some d, [.netRequest "/fax/status"])
    | .resolved _ _ msg =>
      (none, [.netRequest "/fax/status",
              .alertEff ("Error: " ++ jsOrStr msg "Failed to get fax status")])
    | .rejected e =>
      (none, [.netRequest "/fax/status", .alertEff ("Error: " ++ e)])

/-- Embedding of `fetchFaxes` (part_000, lines 152 to 168): the `/fax/list`
envelope nests the array one level deeper (`result.data.data || []`), so
the payload is an optional inner field holding the list; a response with
`ok` and a present `data` stores `data.data` defaulted to the empty list;
every other outcome logs to the console and leaves the previous list. -/
def fetchFaxes {α : Type} (prev : List α) (outcome : NetOutcome (Option (List α))) :
    List α × List Effect :=
  match outcome with
  | .resolved true (some inner) _ => (inner.getD [], [.netRequest "/fax/list"])
  | .resolved _ _ _ => (prev, [.netRequest "/fax/list", .consoleError])
  | .rejected _ => (prev, [.netRequest "/fax/list", .consoleError])

/-- The backend fax record as read by FaxDetailModal.tsx, every field
accessed defensively and therefore optional; `from` is a Lean keyword, so
that field is named `fromNum` (and `toNum` for symmetry; the snake-case
variants keep their source names). -/
structure RawFax where
  id : Option String
  direction : Option String
  fromNum : Option String
  from_number : Option String
  toNum : Option String
  to_number : Option String
  status : Option String
  quality : Option String
  created_at : Option String
  createdAt : Option String
  updated_at : Option String
  updatedAt : Option String
  completedAt : Option String
  preview_url : Option String
  stored_media_url : Option String
  mediaUrl : Option String
deriving DecidableEq, Repr

/-- The normalized record built by FaxDetailModal.tsx. -/
structure NormalizedFax where
  id : Option String
  direction : Option String
  fromNum : Option String
  toNum : Option String
  status : Option String
  quality : Option String
  created_at : Option String
  updated_at : Option String
  preview_url : Option String
  stored_media_url : Option String
deriving DecidableEq, Repr

/-- Embedding of the `normalized` object of FaxDetailModal.tsx (lines 30
to 41); each `??` chain is `Option.orElse`, which skips only nullish
values, exactly like the source nullish coalescing. -/
def normalizeFax (d : RawFax) : NormalizedFax :=
  { id := d.id
    direction := d.direction
    fromNum := d.fromNum <|> d.from_number
    toNum := d.toNum <|> d.to_number
    status := d.status
    quality := d.quality
    created_at := d.created_at <|> d.createdAt
    updated_at := d.updated_at <|> d.updatedAt <|> d.completedAt
    preview_url := d.preview_url
    stored_media_url := d.stored_media_url <|> d.mediaUrl }

/-- Embedding of `fetchFaxDetail` (FaxDetailModal.tsx, lines 22 to 52): a
response with `ok` and a present `data` stores the normalized record;
every other outcome stores `null` (the rejected path also logs). -/
def fetchFaxDetail (outcome : NetOutcome RawFax) : Option NormalizedFax × List Effect :=
  match outcome with
  | .resolved true (some d) _ => (some (normalizeFax d), [.netRequest "/fax/status"])
  | .resolved _ _ _ => (none, [.netRequest "/fax/status"])
  | .rejected _ => (none, [.netRequest "/fax/status", .consoleError])

/-- The Created At cell of FaxDetailModal.tsx (lines 100 to 103):
`fax.created_at ? new Date(fax.created_at).toLocaleString() : "-"`.  The
result records which branch renders: `some v` when the date formatter is
applied to `v` (a truthy `created_at`), `none` when the dash placeholder
is shown. -/
def createdAtDisplay (f : NormalizedFax) : Option String :=
  match f.created_at with
  | some v => if v = "" then none else some v
  | none => none

/-- Success test of a send-fax outcome: `response.ok` with a present
`data` field, the condition of the reset branch of `sendFax`. -/
def isSendSuccess : NetOutcome SendFaxData → Bool
  | .resolved true (some _) _ => true
  | _ => false

/-! Concrete fixtures used by the witnesses and the concrete
evaluations. -/

/-- A concrete inbound ringing vendor call. -/
def ringingCall : CallInfo :=
  { id := "c1"
    state := "ringing"
    direction := "inbound"
    callerName := "Alice"
    remoteCallerNumber := some "+15550001111"
    destinationNumber := some "+15552223333" }

/-- The part_002 panel state right after `ringingCall` was surfaced as the
incoming call. -/
def ringingState : PanelState :=
  { connectionState := .ready
    activeCall := none
    incomingCall := some
      { fromNum := "+15550001111", toNum := "+15552223333", call := ringingCall }
    dest := ""
    status := "Incoming: +15550001111"
    muted := false
    outboundCalls := []
    audioSrc := none }

/-- The same vendor call reported in the terminal `hangup` state. -/
def hangupCallEx : CallInfo := { ringingCall with state := "hangup" }

/-- A part_002 panel state in the middle of an active, muted call. -/
def activeState : PanelState :=
  { connectionState := .ready
    activeCall := some { ringingCall with state := "active" }
    incomingCall := none
    dest := ""
    status := "Connected"
    muted := true
    outboundCalls := ["c9"]
    audioSrc := some "stream1" }

/-- A part_002 panel state still connecting, with a destination typed. -/
def connectingState : PanelState :=
  { connectionState := .connecting
    activeCall := none
    incomingCall := none
    dest := "+15556667777"
    status := "Connecting..."
    muted := false
    outboundCalls := []
    audioSrc := none }

/-- An idle part_002 panel state with no call records at all. -/
def idleState : PanelState :=
  { connectionState := .ready
    activeCall := none
    incomingCall := none
    dest := ""
    status := "Ready"
    muted := false
    outboundCalls := []
    audioSrc := none }

/-- A concrete outbound active call of the PhonePanel.tsx revision, with a
truthy id. -/
def tsxActiveCall : TsxCall :=
  { id := some "c1"
    callID := none
    state := some "active"
    status := none
    direction := some "outbound"
    remoteStream := none
    remoteMediaStream := none }

/-- A PhonePanel.tsx state in the middle of an active call. -/
def tsxActiveState : TsxState :=
  { ready := .ready
    activeCall := some tsxActiveCall
    dest := "+15556667777"
    status := "Connected"
    muted := false
    audioSrc := none }

/-- A PhonePanel.tsx state still connecting, with a destination typed. -/
def tsxConnectingState : TsxState :=
  { ready := .connecting
    activeCall := none
    dest := "+15556667777"
    status := "Idle"
    muted := false
    audioSrc := none }

/-- An idle PhonePanel.tsx state with no active call. -/
def tsxIdleState : TsxState :=
  { ready := .ready
    activeCall := none
    dest := ""
    status := "Ready"
    muted := false
    audioSrc := none }

/-! Theorems settling the claims. -/

/-- C1: a vendor call update in a terminal state (`hangup` or `destroy`)
clears both the incoming-call and the active-call record, resets the mute
flag, and sets the status to Ready when the connection state is ready and
to Disconnected otherwise, whatever the prior UI state; applying the
handler to the same terminal update a second time changes nothing, so the
cleanup is idempotent.  The duplicate-freeness hypothesis on the outbound
id list mirrors the JS `Set` that holds it. -/
theorem c1_terminal_state_cleanup (call : CallInfo) (s : PanelState)
    (hterm : call.state = "hangup" ∨ call.state = "destroy")
    (hnd : s.outboundCalls.Nodup) :
    (handleCallUpdate call s).activeCall = none ∧
    (handleCallUpdate call s).incomingCall = none ∧
    (handleCallUpdate call s).muted = false ∧
    (handleCallUpdate call s).status =
      (if s.connectionState = .ready then "Ready" else "Disconnected") ∧
    handleCallUpdate call (handleCallUpdate call s) = handleCallUpdate call s := by
  have herase : (s.outboundCalls.erase call.id).erase call.id =
      s.outboundCalls.erase call.id := by
    apply List.erase_of_not_mem
    intro hmem
    exact ((List.Nodup.mem_erase_iff hnd).1 hmem).1 rfl
  rcases hterm with h | h <;>
    simp [handleCallUpdate, cleanupCall, h, herase]

/-- Concrete instantiation of `c1_terminal_state_cleanup`: a hangup update
arriving over an active, muted call with an attached stream. -/
theorem c1_terminal_state_cleanup_witness :
    (handleCallUpdate hangupCallEx activeState).activeCall = none ∧
    (handleCallUpdate hangupCallEx activeState).incomingCall = none ∧
    (handleCallUpdate hangupCallEx activeState).muted = false ∧
    (handleCallUpdate hangupCallEx activeState).status =
      (if activeState.connectionState = .ready then "Ready" else "Disconnected") ∧
    handleCallUpdate hangupCallEx (handleCallUpdate hangupCallEx activeState) =
      handleCallUpdate hangupCallEx activeState :=
  c1_terminal_state_cleanup hangupCallEx activeState (Or.inl rfl) (by decide)

/-- C2: evaluation at the failing input.  Rejecting the incoming call
`c1` clears the incoming record, yet a late `ringing` update for the same
identifier re-creates the incoming-call record, and a late `active`
update for it installs the call as the active one: `handleCallUpdate`
keeps no memory of cleared identifiers, so the claimed no-op does not
happen. -/
theorem c2_reject_then_late_update_resurrects :
    (rejectCall ringingState false).1.incomingCall = none ∧
    (handleCallUpdate ringingCall (rejectCall ringingState false).1).incomingCall =
      some { fromNum := "+15550001111", toNum := "+15552223333", call := ringingCall } ∧
    (handleCallUpdate { ringingCall with state := "active" }
        (rejectCall ringingState false).1).activeCall =
      some { ringingCall with state := "active" } := by
  decide

/-- C3: evaluation at the failing input.  With an active call whose
backend hangup request resolves with an error HTTP status (so the awaited
fetch does not throw), the `hangup` action of PhonePanel.tsx ends with
the active call still set and the status unchanged: no local fallback
hangup runs and the UI state is not reset.  The state is equally
unchanged when the backend resolves ok (the reset is then left to a later
vendor notification), and the part_002 `hangupCall` never resets state
itself either; only the rejected-fetch path resets within the action. -/
theorem c3_hangup_no_reset_on_resolved_backend :
    (hangup tsxActiveState (.resolved false) false false).1 = tsxActiveState ∧
    (hangup tsxActiveState (.resolved true) false false).1 = tsxActiveState ∧
    (hangupCall activeState false).1 = activeState ∧
    (hangup tsxActiveState .rejected false false).1.activeCall = none ∧
    (hangup tsxActiveState .rejected false false).1.status = "Ready" := by
  decide

/-- C4: evaluation at the failing input.  With the disposed flag already
set (the view unmounted while the token request was in flight, or after
it), the `call.hangup` listener, the `call.ended` listener and the catch
block of the mount effect of PhonePanel.tsx still update state: none of
the three reads the flag.  The `telnyx.ready` listener, by contrast, is
properly guarded. -/
theorem c4_post_unmount_state_updates :
    onCallHangupEvt true tsxActiveState ≠ tsxActiveState ∧
    onCallEndedEvt true tsxActiveState ≠ tsxActiveState ∧
    initCatch true tsxActiveState ≠ tsxActiveState ∧
    onTelnyxReady true tsxActiveState = tsxActiveState := by
  decide

/-- C5: when the connection state is not ready, the place-call action of
either panel revision is a no-op: the Call button is disabled
(`connectionState !== "ready"` in part_002, `ready !== "ready"` in
PhonePanel.tsx), so its handler never runs — no vendor call is
constructed, no network request is issued, and the state is unchanged. -/
theorem c5_place_call_noop_when_not_ready (s : PanelState) (t : TsxState)
    (clientPresent : Bool) (newCallId : Option String) (backend : FetchOut)
    (hs : s.connectionState ≠ .ready) (ht : t.ready ≠ .ready) :
    makeCallAction s clientPresent newCallId = (s, []) ∧
    tsxCallAction t clientPresent backend = (t, []) := by
  have hds : callButtonDisabled s = true := by
    simp [callButtonDisabled, bne_iff_ne, hs]
  have hdt : tsxCallButtonDisabled t = true := by
    simp [tsxCallButtonDisabled, bne_iff_ne, ht]
  simp [makeCallAction, tsxCallAction, hds, hdt]

/-- Concrete instantiation of `c5_place_call_noop_when_not_ready` at the
connecting states with a destination already typed. -/
theorem c5_place_call_noop_witness :
    makeCallAction connectingState true (some "c2") = (connectingState, []) ∧
    tsxCallAction tsxConnectingState true (.resolved true) = (tsxConnectingState, []) :=
  c5_place_call_noop_when_not_ready connectingState tsxConnectingState true
    (some "c2") (.resolved true) (by decide) (by decide)

/-- C6: with an incoming-call record present, `answerCall` requests
microphone permission strictly before invoking the vendor `answer()` (on
grant the effect list is exactly the permission request followed by the
answer); when permission is denied, `answer()` is never invoked, the
status becomes Failed to answer, and both call records are untouched —
the catch absorbs the rejection instead of letting it propagate. -/
theorem c6_answer_media_first_denied_graceful (s : PanelState) (ic : IncomingCall)
    (answerThrows : Bool) (h : s.incomingCall = some ic) :
    (answerCall s .granted answerThrows).2 = [.getUserMediaReq, .vendorAnswer] ∧
    (answerCall s .denied answerThrows).2 = [.getUserMediaReq] ∧
    (answerCall s .denied answerThrows).1.status = "Failed to answer" ∧
    (answerCall s .denied answerThrows).1.activeCall = s.activeCall ∧
    (answerCall s .denied answerThrows).1.incomingCall = s.incomingCall := by
  cases answerThrows <;> simp [answerCall, h]

/-- Concrete instantiation of `c6_answer_media_first_denied_graceful` on
the ringing state. -/
theorem c6_answer_media_first_witness :
    (answerCall ringingState .granted false).2 = [.getUserMediaReq, .vendorAnswer] ∧
    (answerCall ringingState .denied false).2 = [.getUserMediaReq] ∧
    (answerCall ringingState .denied false).1.status = "Failed to answer" ∧
    (answerCall ringingState .denied false).1.activeCall = ringingState.activeCall ∧
    (answerCall ringingState .denied false).1.incomingCall = ringingState.incomingCall :=
  c6_answer_media_first_denied_graceful ringingState
    { fromNum := "+15550001111", toNum := "+15552223333", call := ringingCall }
    false rfl

/-- C7: a resolved response with a non-error HTTP status whose envelope
lacks the `data` field takes the error path of every fax operation: the
send keeps the form and alerts the error message, the status lookup
stores null and alerts, the history fetch leaves the list unchanged and
logs, and the detail fetch stores null — none populates UI state from the
response. -/
theorem c7_missing_data_is_failure {α : Type} (form : SendForm) (tab : TabType)
    (msg : Option String) (sid : String) (prevStatus : Option α) (faxes : List α)
    (hto : form.toNum ≠ "") (hmedia : form.mediaUrl ≠ "") (hsid : sid ≠ "") :
    (sendFax form tab (.resolved true none msg)).1 = form ∧
    (sendFax form tab (.resolved true none msg)).2 =
      [.netRequest "/fax/send",
       .alertEff ("Error: " ++ jsOrStr msg "Failed to send fax")] ∧
    (checkFaxStatus sid prevStatus (.resolved true none msg)).1 = none ∧
    (fetchFaxes faxes (.resolved true none msg)).1 = faxes ∧
    (fetchFaxDetail (.resolved true none msg)).1 = none := by
  simp [sendFax, checkFaxStatus, fetchFaxes, fetchFaxDetail, hto, hmedia, hsid]

/-- Concrete instantiation of `c7_missing_data_is_failure` with a filled
form, a fax id, and a dataless ok response carrying no message. -/
theorem c7_missing_data_is_failure_witness :
    (sendFax ⟨"+15550001111", "", "https://x/doc.pdf", none⟩ .send
        (.resolved true none none)).1 = ⟨"+15550001111", "", "https://x/doc.pdf", none⟩ ∧
    (sendFax ⟨"+15550001111", "", "https://x/doc.pdf", none⟩ .send
        (.resolved true none none)).2 =
      [.netRequest "/fax/send",
       .alertEff ("Error: " ++ jsOrStr none "Failed to send fax")] ∧
    (checkFaxStatus "f1" (some 7) (.resolved true none none)).1 = none ∧
    (fetchFaxes [7] (.resolved true none none)).1 = [7] ∧
    (fetchFaxDetail (.resolved true none none)).1 = none :=
  c7_missing_data_is_failure ⟨"+15550001111", "", "https://x/doc.pdf", none⟩ .send
    none "f1" (some 7) [7] (by decide) (by decide) (by decide)

/-- C8: when the backend record carries the creation timestamp only under
`createdAt`, normalization maps it into `created_at` via the
`d.created_at ?? d.createdAt ?? null` chain, and the Created At cell of
the overlay formats exactly that value (a timestamp is a non-empty
string, hence truthy). -/
theorem c8_createdAt_fallback (d : RawFax) (v : String)
    (hsnake : d.created_at = none) (hcamel : d.createdAt = some v) (hne : v ≠ "") :
    (normalizeFax d).created_at = some v ∧
    createdAtDisplay (normalizeFax d) = some v := by
  simp [normalizeFax, createdAtDisplay, hsnake, hcamel, hne]

/-- Concrete instantiation of `c8_createdAt_fallback` at a record exposing
only the camel-case timestamp. -/
theorem c8_createdAt_fallback_witness :
    (normalizeFax
        { id := some "f1", direction := some "outbound", fromNum := none
          from_number := none, toNum := none, to_number := none
          status := some "delivered", quality := none, created_at := none
          createdAt := some "2025-01-02T03:04:05Z", updated_at := none
          updatedAt := none, completedAt := none, preview_url := none
          stored_media_url := none, mediaUrl := none }).created_at =
      some "2025-01-02T03:04:05Z" ∧
    createdAtDisplay (normalizeFax
        { id := some "f1", direction := some "outbound", fromNum := none
          from_number := none, toNum := none, to_number := none
          status := some "delivered", quality := none, created_at := none
          createdAt := some "2025-01-02T03:04:05Z", updated_at := none
          updatedAt := none, completedAt := none, preview_url := none
          stored_media_url := none, mediaUrl := none }) =
      some "2025-01-02T03:04:05Z" :=
  c8_createdAt_fallback _ "2025-01-02T03:04:05Z" rfl rfl (by decide)

/-- C9: full characterization of the frame effect of `sendFax` on the
form: the form is reset to the all-empty record exactly when validation
passed (both required fields non-empty) and the response was a success
(ok with `data` present); every other path — validation alert, error
envelope, non-ok status or thrown network error — leaves the form exactly
as it was. -/
theorem c9_send_form_mutated_only_on_success (form : SendForm) (tab : TabType)
    (outcome : NetOutcome SendFaxData) :
    (sendFax form tab outcome).1 =
      if (form.toNum ≠ "" ∧ form.mediaUrl ≠ "") ∧ isSendSuccess outcome = true then
        { toNum := "", fromNum := "", mediaUrl := "", file := none }
      else form := by
  by_cases hv : form.toNum = "" ∨ form.mediaUrl = ""
  · have hneg : ¬ ((form.toNum ≠ "" ∧ form.mediaUrl ≠ "") ∧ isSendSuccess outcome = true) := by
      rintro ⟨⟨h1, h2⟩, _⟩
      rcases hv with h | h
      · exact h1 h
      · exact h2 h
    rw [if_neg hneg]
    simp [sendFax, hv]
  · push_neg at hv
    rcases outcome with ⟨ok, data, msg⟩ | e
    · cases ok <;> cases data <;> simp_all [sendFax, isSendSuccess]
    · simp_all [sendFax, isSendSuccess]

/-- C10: each call-control operation invoked without its required call
record is a total no-op in both panel revisions: the state is returned
unchanged and the effect list is empty, so no vendor-client invocation,
no network request and no UI-state change happens; totality of these
functions over the vendor-throw parameters reflects that every vendor
invocation in the source sits inside try/catch. -/
theorem c10_controls_noop_without_call (s t : PanelState) (u : TsxState)
    (media : MediaResult) (answerThrows vt lt ft : Bool) (digit : String)
    (backend : FetchOut)
    (hs : s.incomingCall = none) (ht : t.activeCall = none)
    (hu : u.activeCall = none) :
    answerCall s media answerThrows = (s, []) ∧
    rejectCall s vt = (s, []) ∧
    hangupCall t vt = (t, []) ∧
    toggleMute t vt = (t, []) ∧
    sendDTMF t digit vt = (t, []) ∧
    hangup u backend lt ft = (u, []) ∧
    tsxAnswer u vt = (u, []) ∧
    tsxToggleMute u vt = (u, []) ∧
    tsxSendDTMF u digit vt = (u, []) := by
  simp [answerCall, rejectCall, hangupCall, toggleMute, sendDTMF, hangup,
        tsxAnswer, tsxToggleMute, tsxSendDTMF, hs, ht, hu]

/-- Concrete instantiation of `c10_controls_noop_without_call` on the idle
states of both revisions. -/
theorem c10_controls_noop_witness :
    answerCall idleState .granted false = (idleState, []) ∧
    rejectCall idleState false = (idleState, []) ∧
    hangupCall idleState false = (idleState, []) ∧
    toggleMute idleState false = (idleState, []) ∧
    sendDTMF idleState "5" false = (idleState, []) ∧
    hangup tsxIdleState (.resolved true) false false = (tsxIdleState, []) ∧
    tsxAnswer tsxIdleState false = (tsxIdleState, []) ∧
    tsxToggleMute tsxIdleState false = (tsxIdleState, []) ∧
    tsxSendDTMF tsxIdleState "5" false = (tsxIdleState, []) :=
  c10_controls_noop_without_call idleState idleState tsxIdleState .granted
    false false false false "5" (.resolved true) rfl rfl rfl

end Tylnex
